import Mathlib

/-!
Verification of the rvBPM repository (a small Spotify OAuth server).

The repository ships three variants of the same server:
* the PKCE variant (src/server.js, lines 211-538): session-bound PKCE flow,
  `/playlist-details` and `/playlist-details/csv` endpoints;
* a legacy client-secret variant (src/unnamed/part_001): module-level token,
  no auth guard on the playlist endpoints;
* a minimal legacy variant (src/unnamed/part_002): `/callback` answers with
  the access token in the page body.

This file gives a shallow embedding of the handlers and helper functions of
those variants and proves or refutes the frozen claims about them.  Outbound
HTTP calls (axios) are modelled as oracle functions passed to each handler,
and the list of requests a handler issues is returned explicitly so that
"no downstream call is made" is a provable statement.
-/

/-! ## Definitions -/

instance instDecidableEqExcept {ε α : Type} [DecidableEq ε] [DecidableEq α] :
    DecidableEq (Except ε α) := fun x y =>
  match x, y with
  | Except.error e, Except.error f =>
      if h : e = f then isTrue (by subst h; rfl)
      else isFalse (fun hc => h (by cases hc; rfl))
  | Except.error _, Except.ok _ => isFalse (fun hc => Except.noConfusion hc)
  | Except.ok _, Except.error _ => isFalse (fun hc => Except.noConfusion hc)
  | Except.ok a, Except.ok b =>
      if h : a = b then isTrue (by subst h; rfl)
      else isFalse (fun hc => h (by cases hc; rfl))

/-- JavaScript truthiness of a nullable string value: `null`/`undefined`
(modelled as `none`) and the empty string are falsy, every other string is
truthy.  This is the test performed by `if (!x)` and `while (x)` in the
source. -/
def jsTruthy : Option String → Bool
  | none => false
  | some s => if s = "" then false else true

/-- Error thrown by a failed axios call; carries the upstream HTTP status
(e.g. 401, 500). -/
structure ApiError where
  status : Nat
deriving DecidableEq, Repr

/-- One page of the Spotify paged tracks endpoint, as consumed by
`getAllPlaylistTracks`: the `data.items` batch plus the `data.next` URL
(`none` models JSON `null`). -/
structure PageResponse (α : Type) where
  items : List α
  next : Option String
deriving DecidableEq, Repr

/-- An outbound HTTP request: target URL plus the Authorization header sent
with it. -/
structure Request where
  url : String
  authHeader : String
deriving DecidableEq, Repr

/-- Authorization header for a bearer token, as built at src/server.js:391
and 417 (template `Bearer ${accessToken}`). -/
def bearerHeader (token : String) : String := "Bearer " ++ token

/-- A GET request with a bearer Authorization header. -/
def mkGetReq (url token : String) : Request :=
  { url := url, authHeader := bearerHeader token }

/-- URL of the playlist-detail endpoint (src/server.js:415). -/
def playlistURL (pid : String) : String :=
  "https://api.spotify.com/v1/playlists/" ++ pid

/-- URL of the first tracks page (src/server.js:386). -/
def tracksURL (pid : String) : String := playlistURL pid ++ "/tracks"

/-- Loop body of `getAllPlaylistTracks` (src/server.js:388-401): while the
next URL is truthy, fetch it, append the received items and continue with
`response.data.next`.  `fuel` bounds the number of iterations; running out of
fuel while the loop guard is still true yields `none`, modelling
non-termination of the source loop.  The second component is the list of
requests issued (in order). -/
def fetchTracksLoop {α : Type} (fetch : String → Except ApiError (PageResponse α))
    (accessToken : String) :
    Nat → Option String → List α → List Request →
      Option (Except ApiError (List α)) × List Request
  | 0, nextURL, tracks, reqs =>
      if jsTruthy nextURL then (none, reqs) else (some (Except.ok tracks), reqs)
  | fuel + 1, nextURL, tracks, reqs =>
      if jsTruthy nextURL then
        let url := nextURL.getD ""
        match fetch url with
        | Except.error e => (some (Except.error e), reqs ++ [mkGetReq url accessToken])
        | Except.ok page =>
            fetchTracksLoop fetch accessToken fuel page.next (tracks ++ page.items)
              (reqs ++ [mkGetReq url accessToken])
      else (some (Except.ok tracks), reqs)

/-- `getAllPlaylistTracks` (src/server.js:384-404): paginated fetch starting
from the tracks URL of the playlist, with an empty accumulator.  The
definition in src/unnamed/part_001:116-133 is the same loop (it only omits
the Content-Type header, which is not part of this model). -/
def getAllPlaylistTracks {α : Type} (fetch : String → Except ApiError (PageResponse α))
    (playlistId accessToken : String) (fuel : Nat) :
    Option (Except ApiError (List α)) × List Request :=
  fetchTracksLoop fetch accessToken fuel (some (tracksURL playlistId)) [] []

/-- A finite chain of successful page responses reachable from `url`: each
page is returned by the oracle for its URL, consecutive pages are linked by
the `next` pointer (always a non-empty URL), and the final page has
`next = null`. -/
inductive FetchChain {α : Type} (fetch : String → Except ApiError (PageResponse α)) :
    String → List (PageResponse α) → Prop
  | last (url : String) (page : PageResponse α) :
      fetch url = Except.ok page → page.next = none → FetchChain fetch url [page]
  | step (url : String) (page : PageResponse α) (u : String) (rest : List (PageResponse α)) :
      fetch url = Except.ok page → page.next = some u → u ≠ "" →
      FetchChain fetch u rest → FetchChain fetch url (page :: rest)

/-- A chain of `n` successful pages from `url` after which the next page
request fails with error `e`. -/
inductive FailChain {α : Type} (fetch : String → Except ApiError (PageResponse α))
    (e : ApiError) : String → Nat → Prop
  | here (url : String) : fetch url = Except.error e → FailChain fetch e url 0
  | step (url : String) (page : PageResponse α) (u : String) (n : Nat) :
      fetch url = Except.ok page → page.next = some u → u ≠ "" →
      FailChain fetch e u n → FailChain fetch e url (n + 1)

/-- Mocked paged API for the C7 witness: three pages of sizes 50, 50 and 17
chained by next pointers, the last page carrying next = null. -/
def demoFetch : String → Except ApiError (PageResponse Nat) := fun url =>
  if url = tracksURL "P" then Except.ok ⟨List.range 50, some "u2"⟩
  else if url = "u2" then Except.ok ⟨(List.range 50).map (fun k => 50 + k), some "u3"⟩
  else if url = "u3" then Except.ok ⟨(List.range 17).map (fun k => 100 + k), none⟩
  else Except.error ⟨404⟩

/-- Page list served by `demoFetch`. -/
def demoPages : List (PageResponse Nat) :=
  [⟨List.range 50, some "u2"⟩,
   ⟨(List.range 50).map (fun k => 50 + k), some "u3"⟩,
   ⟨(List.range 17).map (fun k => 100 + k), none⟩]

/-- Mocked paged API for the C8 witness: the first page succeeds, the second
page request answers 500. -/
def failFetch : String → Except ApiError (PageResponse Nat) := fun url =>
  if url = tracksURL "Q" then Except.ok ⟨List.range 50, some "q2"⟩
  else if url = "q2" then Except.error ⟨500⟩
  else Except.error ⟨404⟩

/-! ### Base64 and PKCE code-verifier generation

Node's `buffer.toString('base64')` is standard base64: the alphabet below
and `=` padding.  `generateCodeVerifier` (src/server.js:243-251) encodes 64
random bytes, maps `+` to `-` and `/` to `_`, strips `=` and truncates to 64
characters. -/

/-- The standard base64 alphabet, in index order. -/
def base64Chars : List Char :=
  ['A', 'B', 'C', 'D', 'E', 'F', 'G', 'H', 'I', 'J', 'K', 'L', 'M',
   'N', 'O', 'P', 'Q', 'R', 'S', 'T', 'U', 'V', 'W', 'X', 'Y', 'Z',
   'a', 'b', 'c', 'd', 'e', 'f', 'g', 'h', 'i', 'j', 'k', 'l', 'm',
   'n', 'o', 'p', 'q', 'r', 's', 't', 'u', 'v', 'w', 'x', 'y', 'z',
   '0', '1', '2', '3', '4', '5', '6', '7', '8', '9', '+', '/']

/-- Character of the base64 alphabet at index `i` (all uses have `i < 64`). -/
def b64 (i : Nat) : Char :=
  if h : i < base64Chars.length then base64Chars.get ⟨i, h⟩ else 'A'

/-- Standard base64 encoding of a byte list, processed in groups of three
bytes, with `=` padding for a trailing group of one or two bytes. -/
def base64EncodeList : List Nat → List Char
  | [] => []
  | [b1] => [b64 (b1 / 4), b64 (b1 % 4 * 16), '=', '=']
  | [b1, b2] => [b64 (b1 / 4), b64 (b1 % 4 * 16 + b2 / 16), b64 (b2 % 16 * 4), '=']
  | b1 :: b2 :: b3 :: rest =>
      b64 (b1 / 4) :: b64 (b1 % 4 * 16 + b2 / 16) :: b64 (b2 % 16 * 4 + b3 / 64) ::
        b64 (b3 % 64) :: base64EncodeList rest

/-- Base64 encoding as a string. -/
def base64String (bytes : List Nat) : String := String.mk (base64EncodeList bytes)

/-- HTTP Basic credential used by the legacy callbacks
(`Basic ` + base64 of `clientId:clientSecret`). -/
def basicAuthHeader (clientId clientSecret : String) : String :=
  "Basic " ++ base64String ((clientId ++ ":" ++ clientSecret).data.map Char.toNat)

/-- First replacement of `generateCodeVerifier`: `+` becomes `-`. -/
def replacePlus (c : Char) : Char := if c = '+' then '-' else c

/-- Second replacement of `generateCodeVerifier`: `/` becomes `_`. -/
def replaceSlash (c : Char) : Char := if c = '/' then '_' else c

/-- Composition of the two replacements, base64 to base64url. -/
def urlmap (c : Char) : Char := replaceSlash (replacePlus c)

/-- `generateCodeVerifier` (src/server.js:243-251) applied to the byte
sequence returned by the entropy source `crypto.randomBytes(64)`: base64
encode, replace `+` with `-`, replace `/` with `_`, delete `=`, slice to the
first 64 characters. -/
def generateCodeVerifier (bytes : List Nat) : String :=
  String.mk (((((base64EncodeList bytes).map replacePlus).map replaceSlash).filter
    (fun c => c != '=')).take 64)

/-- Membership in the unreserved PKCE code-verifier alphabet
`[A-Za-z0-9\-._~]`. -/
def verifierChar (c : Char) : Prop :=
  c.isAlphanum = true ∨ c = '-' ∨ c = '.' ∨ c = '_' ∨ c = '~'

instance (c : Char) : Decidable (verifierChar c) := by
  unfold verifierChar; infer_instance

/-! ### Sessions, responses and the callback handlers -/

/-- A playlist track item as used by the handlers: `item.track.name` and the
names of `item.track.artists`. -/
structure Track where
  title : String
  artists : List String
deriving DecidableEq, Repr

/-- Title/artist pair extracted for rendering (`trackDetails` in the
source). -/
structure TrackDetail where
  title : String
  artist : String
deriving DecidableEq, Repr

/-- Extraction at src/server.js:428-431: title plus the artist names joined
with a comma. -/
def trackDetail (t : Track) : TrackDetail :=
  { title := t.title, artist := String.intercalate ", " t.artists }

/-- HTTP response sent by a handler. -/
inductive HttpResponse where
  | redirect (location : String)
  | send (body : String)
  | jsonResp (playlistName : String) (tracks : List Track)
  | csvAttachment (filename : String) (body : String)
deriving DecidableEq, Repr

/-- Per-browser session state (express-session); the PKCE flow reads and
writes `req.session.codeVerifier` and `req.session.accessToken`. -/
structure Session where
  codeVerifier : Option String
  accessToken : Option String
deriving DecidableEq, Repr

/-- Result of running one request handler: the HTTP response it sent (`none`
models a handler that never answers), the session state afterwards, and the
outbound requests it issued, in order. -/
structure HandlerResult where
  response : Option HttpResponse
  session : Session
  requests : List Request
deriving DecidableEq, Repr

/-- Body of a successful token-endpoint response (`response.data`). -/
structure TokenResponse where
  accessToken : String
deriving DecidableEq, Repr

/-- Parameters of the PKCE token-exchange POST (src/server.js:358-365). -/
structure PkceTokenRequest where
  clientId : String
  grantType : String
  code : Option String
  redirectUri : String
  codeVerifier : String
deriving DecidableEq, Repr

/-- Parameters of the legacy token-exchange POST
(src/unnamed/part_002:62-73). -/
structure LegacyTokenRequest where
  code : Option String
  redirectUri : String
  grantType : String
  authHeader : String
deriving DecidableEq, Repr

/-- `req.query.code || null` (src/server.js:349): an absent or empty query
parameter becomes null. -/
def normalizeCode : Option String → Option String
  | none => none
  | some s => if s = "" then none else some s

/-- Redirect URI of the PKCE variant (src/server.js:317). -/
def pkceRedirectUri : String := "https://localhost:8888/callback"

/-- Redirect URI of the legacy variant (src/unnamed/part_002:43). -/
def legacyRedirectUri : String := "http://localhost:8888/callback"

/-- Token endpoint URL of the legacy part_002 callback; the angle brackets
are literal in the source (src/unnamed/part_002:63). -/
def legacy002TokenURL : String := "<https://accounts.spotify.com/api/token>"

/-- The request sent by the PKCE token exchange; PKCE sends no Authorization
header. -/
def tokenEndpointReq : Request :=
  { url := "https://accounts.spotify.com/api/token", authHeader := "" }

/-- PKCE token-exchange parameters built at src/server.js:358-365. -/
def pkceTokenRequest (clientId : String) (code : Option String)
    (verifier : String) : PkceTokenRequest :=
  { clientId := clientId, grantType := "authorization_code",
    code := normalizeCode code, redirectUri := pkceRedirectUri,
    codeVerifier := verifier }

/-- Legacy token-exchange parameters built at src/unnamed/part_002:62-73. -/
def legacyTokenRequest (clientId clientSecret : String)
    (code : Option String) : LegacyTokenRequest :=
  { code := normalizeCode code, redirectUri := legacyRedirectUri,
    grantType := "authorization_code",
    authHeader := basicAuthHeader clientId clientSecret }

/-- The PKCE `/callback` handler (src/server.js:348-379).  If the session
holds no (truthy) code verifier it redirects to `/login` without contacting
the token endpoint.  Otherwise it performs the exchange; on success it
stores the token in the session and redirects to `/playlist-details`, on
failure it redirects to `/login`.  The source also mirrors the token into
the module-global `spotifyToken` (line 373); no claim depends on that
global, so it is not part of the model.  Note the handler never removes
`codeVerifier` from the session. -/
def callbackPkce (s : Session) (code : Option String)
    (exchange : PkceTokenRequest → Except ApiError TokenResponse)
    (clientId : String) : HandlerResult :=
  if jsTruthy s.codeVerifier = false then
    { response := some (HttpResponse.redirect "/login"), session := s, requests := [] }
  else
    let verifier := s.codeVerifier.getD ""
    match exchange (pkceTokenRequest clientId code verifier) with
    | Except.ok tr =>
        { response := some (HttpResponse.redirect "/playlist-details"),
          session := { s with accessToken := some tr.accessToken },
          requests := [tokenEndpointReq] }
    | Except.error _ =>
        { response := some (HttpResponse.redirect "/login"), session := s,
          requests := [tokenEndpointReq] }

/-- The legacy `/callback` handler (src/unnamed/part_002:60-82): always
performs the exchange; on success it answers 200 with the access token in
the page body, on failure 200 with a generic error body.  No session is
involved. -/
def callbackLegacy (code : Option String)
    (exchange : LegacyTokenRequest → Except ApiError TokenResponse)
    (clientId clientSecret : String) : Option HttpResponse × List Request :=
  let req : Request :=
    { url := legacy002TokenURL, authHeader := basicAuthHeader clientId clientSecret }
  match exchange (legacyTokenRequest clientId clientSecret code) with
  | Except.ok tr =>
      (some (HttpResponse.send ("Access Token: " ++ tr.accessToken)), [req])
  | Except.error _ =>
      (some (HttpResponse.send "Error retrieving access token"), [req])

/-! ### The playlist endpoints -/

/-- Playlist metadata used by the handlers (`playlistResponse.data.name`). -/
structure Playlist where
  name : String
deriving DecidableEq, Repr

/-- Accept-header alternative chosen by `res.format`
(src/server.js:447-450). -/
inductive Accept where
  | html
  | json
deriving DecidableEq, Repr

/-- Playlist id hardcoded in the PKCE endpoints (src/server.js:413, 463). -/
def pkcePlaylistId : String := "7MU4kChv9nIF242QWv8DJz"

/-- Playlist id hardcoded in the legacy endpoints
(src/unnamed/part_001:138, 183). -/
def legacyPlaylistId : String := "4aVwn1fC0Gai4HOLbHVo9U"

/-- Generic body sent by the catch blocks of all four playlist endpoints. -/
def detailsErrorBody : String := "Error fetching playlist details"

/-- Identifiers declared at module level of the PKCE variant
(src/server.js:211-538), plus the sloppy-mode global `spotifyToken` created
by the assignment at line 373. -/
def pkceModuleScope : List String :=
  ["getBPMs", "https", "fs", "httpsOptions", "qs", "crypto",
   "generateCodeVerifier", "generateCodeChallenge", "session",
   "clientSecret", "clientId", "express", "axios", "app", "port",
   "redirectUri", "scopes", "server", "Parser", "getAllPlaylistTracks",
   "spotifyToken"]

/-- Identifiers bound in some enclosing scope at the call
`getAllPlaylistTracks(playlistId, accessToken)` on src/server.js:425:
the handler locals declared before that line plus the module scope.
(`tracks`, `trackDetails`, `html` and `jsonResponse` are declared later in
the same block and are in the temporal dead zone there; they are not
referenced by the call.) -/
def playlistDetailsScope : List String :=
  ["req", "res", "playlistId", "playlistResponse", "playlistName"] ++ pkceModuleScope

/-- Identifiers bound in some enclosing scope at the call
`getAllPlaylistTracks(playlistId, accessToken)` on src/server.js:475, in the
CSV handler. -/
def playlistCsvScope : List String :=
  ["req", "res", "playlistId", "playlistResponse", "playlistName"] ++ pkceModuleScope

/-- HTML built at src/server.js:434-438. -/
def detailsHtml (playlistName : String) (details : List TrackDetail) : String :=
  (details.foldl (fun h t => h ++ "<li>" ++ t.title ++ ": " ++ t.artist ++ "</li>")
    ("<h1>Playlist Name: " ++ playlistName ++ "</h1><h2>Track Titles and Artists</h2><ul>"))
    ++ "</ul>"

/-- A double-quoted CSV field. -/
def csvField (s : String) : String := "\"" ++ s ++ "\""

/-- Output of `new Parser().parse(trackDetails)` (json2csv).  The spec
treats the CSV serializer as an external collaborator; this representative
serialization only matters as an opaque body, no claim inspects it. -/
def csvOfDetails (details : List TrackDetail) : String :=
  String.intercalate "\n"
    ("\"title\",\"artist\"" ::
      details.map (fun d => csvField d.title ++ "," ++ csvField d.artist))

/-- Output of `new Parser().parse(tracks)` in the legacy CSV endpoint
(src/unnamed/part_001:204); representative, opaque to every claim. -/
def csvOfTracks (tracks : List Track) : String :=
  String.intercalate "\n"
    ("\"title\",\"artists\"" ::
      tracks.map (fun t => csvField t.title ++ "," ++
        csvField (String.intercalate ", " t.artists)))

/-- The regex class `[a-z0-9]` with the `i` flag, as matched at
src/server.js:488. -/
def matchesAlnum (c : Char) : Bool := c.isLower || c.isUpper || c.isDigit

/-- One character of `playlistName.replace(/[^a-z0-9]/gi, '_')`. -/
def sanitizeChar (c : Char) : Char := if matchesAlnum c then c else '_'

/-- `playlistName.replace(/[^a-z0-9]/gi, '_').toLowerCase()`
(src/server.js:488). -/
def sanitizePlaylistName (name : String) : String :=
  String.mk ((name.data.map sanitizeChar).map Char.toLower)

/-- The attachment filename passed to `res.attachment` at
src/server.js:490. -/
def csvFilename (name : String) : String := sanitizePlaylistName name ++ ".csv"

/-- The PKCE `/playlist-details` handler (src/server.js:408-456).  Guard:
without a truthy session access token, redirect to `/login` and issue no
request.  Otherwise fetch the playlist metadata; on success the source then
evaluates `getAllPlaylistTracks(playlistId, accessToken)` (line 425) whose
argument `accessToken` is looked up in the enclosing scopes — the lookup is
modelled by the membership test on `playlistDetailsScope`, and its failure
(a ReferenceError) lands in the catch block, which answers 200 with a
generic body.  The branch under the membership test mirrors the success
continuation of the source; it is unreachable, and the empty token it would
pass is an arbitrary placeholder. -/
def playlistDetailsPkce (s : Session)
    (getPlaylist : Request → Except ApiError Playlist)
    (getTracksPage : String → Except ApiError (PageResponse Track))
    (fuel : Nat) (accept : Accept) : HandlerResult :=
  if jsTruthy s.accessToken = false then
    { response := some (HttpResponse.redirect "/login"), session := s, requests := [] }
  else
    let token := s.accessToken.getD ""
    let req1 := mkGetReq (playlistURL pkcePlaylistId) token
    match getPlaylist req1 with
    | Except.error _ =>
        { response := some (HttpResponse.send detailsErrorBody), session := s,
          requests := [req1] }
    | Except.ok pl =>
        if playlistDetailsScope.contains "accessToken" then
          let r := getAllPlaylistTracks getTracksPage pkcePlaylistId "" fuel
          match r.1 with
          | none => { response := none, session := s, requests := req1 :: r.2 }
          | some (Except.error _) =>
              { response := some (HttpResponse.send detailsErrorBody), session := s,
                requests := req1 :: r.2 }
          | some (Except.ok tracks) =>
              match accept with
              | Accept.html =>
                  { response := some (HttpResponse.send
                      (detailsHtml pl.name (tracks.map trackDetail))),
                    session := s, requests := req1 :: r.2 }
              | Accept.json =>
                  { response := some (HttpResponse.jsonResp pl.name tracks),
                    session := s, requests := req1 :: r.2 }
        else
          { response := some (HttpResponse.send detailsErrorBody), session := s,
            requests := [req1] }

/-- The PKCE `/playlist-details/csv` handler (src/server.js:458-497); same
structure as `playlistDetailsPkce`, with the same unbound `accessToken` at
line 475, answering a CSV attachment on the (unreachable) success path. -/
def playlistDetailsCsvPkce (s : Session)
    (getPlaylist : Request → Except ApiError Playlist)
    (getTracksPage : String → Except ApiError (PageResponse Track))
    (fuel : Nat) : HandlerResult :=
  if jsTruthy s.accessToken = false then
    { response := some (HttpResponse.redirect "/login"), session := s, requests := [] }
  else
    let token := s.accessToken.getD ""
    let req1 := mkGetReq (playlistURL pkcePlaylistId) token
    match getPlaylist req1 with
    | Except.error _ =>
        { response := some (HttpResponse.send detailsErrorBody), session := s,
          requests := [req1] }
    | Except.ok pl =>
        if playlistCsvScope.contains "accessToken" then
          let r := getAllPlaylistTracks getTracksPage pkcePlaylistId "" fuel
          match r.1 with
          | none => { response := none, session := s, requests := req1 :: r.2 }
          | some (Except.error _) =>
              { response := some (HttpResponse.send detailsErrorBody), session := s,
                requests := req1 :: r.2 }
          | some (Except.ok tracks) =>
              { response := some (HttpResponse.csvAttachment (csvFilename pl.name)
                  (csvOfDetails (tracks.map trackDetail))),
                session := s, requests := req1 :: r.2 }
        else
          { response := some (HttpResponse.send detailsErrorBody), session := s,
            requests := [req1] }

/-- The legacy `/playlist-details` handler (src/unnamed/part_001:137-180):
no authentication guard; it reads the module-level `spotifyToken` and
immediately issues the playlist request, then paginates the tracks; every
failure is caught and answered 200 with the generic body. -/
def playlistDetailsLegacy (spotifyToken : String)
    (getPlaylist : Request → Except ApiError Playlist)
    (getTracksPage : String → Except ApiError (PageResponse Track))
    (fuel : Nat) (accept : Accept) : Option HttpResponse × List Request :=
  let accessToken := spotifyToken
  let req1 := mkGetReq (playlistURL legacyPlaylistId) accessToken
  match getPlaylist req1 with
  | Except.error _ => (some (HttpResponse.send detailsErrorBody), [req1])
  | Except.ok pl =>
      let r := getAllPlaylistTracks getTracksPage legacyPlaylistId accessToken fuel
      match r.1 with
      | none => (none, req1 :: r.2)
      | some (Except.error _) => (some (HttpResponse.send detailsErrorBody), req1 :: r.2)
      | some (Except.ok tracks) =>
          match accept with
          | Accept.html =>
              (some (HttpResponse.send (detailsHtml pl.name (tracks.map trackDetail))),
                req1 :: r.2)
          | Accept.json => (some (HttpResponse.jsonResp pl.name tracks), req1 :: r.2)

/-- The legacy `/playlist-details/csv` handler
(src/unnamed/part_001:182-216): same shape, no authentication guard. -/
def playlistDetailsCsvLegacy (spotifyToken : String)
    (getPlaylist : Request → Except ApiError Playlist)
    (getTracksPage : String → Except ApiError (PageResponse Track))
    (fuel : Nat) : Option HttpResponse × List Request :=
  let accessToken := spotifyToken
  let req1 := mkGetReq (playlistURL legacyPlaylistId) accessToken
  match getPlaylist req1 with
  | Except.error _ => (some (HttpResponse.send detailsErrorBody), [req1])
  | Except.ok pl =>
      let r := getAllPlaylistTracks getTracksPage legacyPlaylistId accessToken fuel
      match r.1 with
      | none => (none, req1 :: r.2)
      | some (Except.error _) => (some (HttpResponse.send detailsErrorBody), req1 :: r.2)
      | some (Except.ok tracks) =>
          (some (HttpResponse.csvAttachment (csvFilename pl.name) (csvOfTracks tracks)),
            req1 :: r.2)

/-- Character class of the sanitized filename: lowercase letter, digit or
underscore. -/
def filenameChar (c : Char) : Bool := c.isLower || c.isDigit || c == '_'

/-! ### Concrete oracles used by witnesses and counterexamples -/

/-- Playlist-metadata oracle that always succeeds with the given name. -/
def constPlaylist (name : String) : Request → Except ApiError Playlist :=
  fun _ => Except.ok { name := name }

/-- Playlist-metadata oracle that always fails with the given status. -/
def failPlaylist (status : Nat) : Request → Except ApiError Playlist :=
  fun _ => Except.error { status := status }

/-- Tracks-page oracle that always fails. -/
def noTracks : String → Except ApiError (PageResponse Track) :=
  fun _ => Except.error { status := 404 }

/-- PKCE exchange oracle that always succeeds with the given token. -/
def okExchangePkce (tok : String) : PkceTokenRequest → Except ApiError TokenResponse :=
  fun _ => Except.ok { accessToken := tok }

/-- PKCE exchange oracle that always fails with the given status. -/
def errExchangePkce (status : Nat) : PkceTokenRequest → Except ApiError TokenResponse :=
  fun _ => Except.error { status := status }

/-- Legacy exchange oracle that always succeeds with the given token. -/
def okExchangeLegacy (tok : String) : LegacyTokenRequest → Except ApiError TokenResponse :=
  fun _ => Except.ok { accessToken := tok }

/-- Legacy exchange oracle that always fails with the given status. -/
def errExchangeLegacy (status : Nat) : LegacyTokenRequest → Except ApiError TokenResponse :=
  fun _ => Except.error { status := status }

/-! ## Theorems -/

theorem jsTruthy_some {s : String} (h : s ≠ "") : jsTruthy (some s) = true := by
  simp [jsTruthy, h]

theorem tracksURL_ne (pid : String) : tracksURL pid ≠ "" := by
  intro h
  have h2 : (tracksURL pid).length = 0 := by rw [h]; rfl
  unfold tracksURL playlistURL at h2
  rw [String.length_append, String.length_append] at h2
  have h3 : ("https://api.spotify.com/v1/playlists/" : String).length = 37 := by decide
  omega

theorem fetchLoop_none {α : Type} (fetch : String → Except ApiError (PageResponse α))
    (tok : String) (fuel : Nat) (acc : List α) (reqs : List Request) :
    fetchTracksLoop fetch tok fuel none acc reqs = (some (Except.ok acc), reqs) := by
  cases fuel <;> simp [fetchTracksLoop, jsTruthy]

theorem fetchLoop_succ_err {α : Type} {fetch : String → Except ApiError (PageResponse α)}
    {tok url : String} {e : ApiError} (fuel : Nat) (acc : List α) (reqs : List Request)
    (hurl : url ≠ "") (hf : fetch url = Except.error e) :
    fetchTracksLoop fetch tok (fuel + 1) (some url) acc reqs =
      (some (Except.error e), reqs ++ [mkGetReq url tok]) := by
  simp [fetchTracksLoop, jsTruthy, hurl, hf]

theorem fetchLoop_succ_ok {α : Type} {fetch : String → Except ApiError (PageResponse α)}
    {tok url : String} {page : PageResponse α} (fuel : Nat) (acc : List α)
    (reqs : List Request) (hurl : url ≠ "") (hf : fetch url = Except.ok page) :
    fetchTracksLoop fetch tok (fuel + 1) (some url) acc reqs =
      fetchTracksLoop fetch tok fuel page.next (acc ++ page.items)
        (reqs ++ [mkGetReq url tok]) := by
  simp [fetchTracksLoop, jsTruthy, hurl, hf]

theorem fetchLoop_chain {α : Type} {fetch : String → Except ApiError (PageResponse α)}
    (tok : String) {url : String} {pages : List (PageResponse α)}
    (hchain : FetchChain fetch url pages) :
    ∀ (fuel : Nat) (acc : List α) (reqs : List Request),
      pages.length ≤ fuel → url ≠ "" →
      (fetchTracksLoop fetch tok fuel (some url) acc reqs).1 =
        some (Except.ok (acc ++ (pages.map PageResponse.items).flatten)) := by
  induction hchain with
  | last url page hf hn =>
      intro fuel acc reqs hfuel hurl
      obtain ⟨f, rfl⟩ : ∃ f, fuel = f + 1 := by
        cases fuel with
        | zero => simp at hfuel
        | succ f => exact ⟨f, rfl⟩
      rw [fetchLoop_succ_ok f acc reqs hurl hf, hn, fetchLoop_none]
      simp
  | step url page u rest hf hn hu _ ih =>
      intro fuel acc reqs hfuel hurl
      obtain ⟨f, rfl⟩ : ∃ f, fuel = f + 1 := by
        cases fuel with
        | zero => simp at hfuel
        | succ f => exact ⟨f, rfl⟩
      rw [fetchLoop_succ_ok f acc reqs hurl hf, hn]
      rw [ih f (acc ++ page.items) (reqs ++ [mkGetReq url tok])
        (by simp at hfuel; omega) hu]
      simp

theorem fetchLoop_fail {α : Type} {fetch : String → Except ApiError (PageResponse α)}
    (tok : String) {e : ApiError} {url : String} {n : Nat}
    (hchain : FailChain fetch e url n) :
    ∀ (fuel : Nat) (acc : List α) (reqs : List Request),
      n < fuel → url ≠ "" →
      (fetchTracksLoop fetch tok fuel (some url) acc reqs).1 =
        some (Except.error e) := by
  induction hchain with
  | here url hf =>
      intro fuel acc reqs hfuel hurl
      obtain ⟨f, rfl⟩ : ∃ f, fuel = f + 1 := by
        cases fuel with
        | zero => omega
        | succ f => exact ⟨f, rfl⟩
      rw [fetchLoop_succ_err f acc reqs hurl hf]
  | step url page u n hf hn hu _ ih =>
      intro fuel acc reqs hfuel hurl
      obtain ⟨f, rfl⟩ : ∃ f, fuel = f + 1 := by
        cases fuel with
        | zero => omega
        | succ f => exact ⟨f, rfl⟩
      rw [fetchLoop_succ_ok f acc reqs hurl hf, hn]
      exact ih f (acc ++ page.items) (reqs ++ [mkGetReq url tok]) (by omega) hu

/-- C7: for every finite sequence of page responses whose next pointers chain
from the initial tracks URL and end with next = null, `getAllPlaylistTracks`
returns the concatenation of all pages' item lists in the original
server-provided order. -/
theorem claim_C7_pagination_order {α : Type}
    (fetch : String → Except ApiError (PageResponse α))
    (playlistId accessToken : String) (fuel : Nat) (pages : List (PageResponse α))
    (hchain : FetchChain fetch (tracksURL playlistId) pages)
    (hfuel : pages.length ≤ fuel) :
    (getAllPlaylistTracks fetch playlistId accessToken fuel).1 =
      some (Except.ok (pages.map PageResponse.items).flatten) := by
  have h := fetchLoop_chain accessToken hchain fuel [] [] hfuel (tracksURL_ne playlistId)
  simpa [getAllPlaylistTracks] using h

/-- Witness for C7: on the mocked 50/50/17 paged API the fetcher returns
exactly the 117 items 0..116 in order. -/
theorem claim_C7_witness :
    (getAllPlaylistTracks demoFetch "P" "tok" 3).1 =
      some (Except.ok (List.range 117)) := by
  have hchain : FetchChain demoFetch (tracksURL "P") demoPages := by
    unfold demoPages
    refine FetchChain.step _ _ "u2" _ (by decide) (by decide) (by decide) ?_
    refine FetchChain.step _ _ "u3" _ (by decide) (by decide) (by decide) ?_
    exact FetchChain.last _ _ (by decide) (by decide)
  have h := claim_C7_pagination_order demoFetch "P" "tok" 3 demoPages hchain (by decide)
  rw [h]
  decide

/-- C8: if any page request during pagination fails, `getAllPlaylistTracks`
propagates that error to the caller; the result is an `Except.error`, which
carries no partial item list. -/
theorem claim_C8_error_propagation {α : Type}
    (fetch : String → Except ApiError (PageResponse α))
    (playlistId accessToken : String) (fuel : Nat) (e : ApiError) (n : Nat)
    (hchain : FailChain fetch e (tracksURL playlistId) n)
    (hfuel : n < fuel) :
    (getAllPlaylistTracks fetch playlistId accessToken fuel).1 =
      some (Except.error e) := by
  have h := fetchLoop_fail accessToken hchain fuel [] [] hfuel (tracksURL_ne playlistId)
  simpa [getAllPlaylistTracks] using h

/-- Witness for C8: with the second page answering 500 the fetcher returns
exactly that error and no item list. -/
theorem claim_C8_witness :
    (getAllPlaylistTracks failFetch "Q" "tok" 2).1 =
      some (Except.error ⟨500⟩) := by
  have hchain : FailChain failFetch ⟨500⟩ (tracksURL "Q") 1 := by
    refine FailChain.step _ ⟨List.range 50, some "q2"⟩ "q2" 0
      (by decide) (by decide) (by decide) ?_
    exact FailChain.here _ (by decide)
  exact claim_C8_error_propagation failFetch "Q" "tok" 2 ⟨500⟩ 1 hchain (by decide)

/-! ### The callback claims -/

/-- C5: a PKCE `/callback` request whose session contains no stored code
verifier responds with a redirect to `/login`, makes no outbound
token-exchange request, and leaves the session state unchanged. -/
theorem claim_C5_missing_verifier (s : Session) (code : Option String)
    (exchange : PkceTokenRequest → Except ApiError TokenResponse)
    (clientId : String) (h : s.codeVerifier = none) :
    callbackPkce s code exchange clientId =
      { response := some (HttpResponse.redirect "/login"), session := s,
        requests := [] } := by
  unfold callbackPkce
  rw [h]
  simp [jsTruthy]

/-- Witness for C5 at a concrete session with no verifier. -/
theorem claim_C5_witness :
    callbackPkce ⟨none, none⟩ (some "c") (okExchangePkce "tok") "cid" =
      { response := some (HttpResponse.redirect "/login"),
        session := ⟨none, none⟩, requests := [] } :=
  claim_C5_missing_verifier ⟨none, none⟩ (some "c") (okExchangePkce "tok") "cid" rfl

/-- C4 counterexample: at a concrete callback request that finds the stored
verifier "v" and whose exchange succeeds, the session after the handler
still holds the verifier; it is not discarded. -/
theorem claim_C4_counterexample :
    (callbackPkce ⟨some "v", none⟩ (some "c") (okExchangePkce "tok")
      "cid").session.codeVerifier = some "v" ∧
    some "v" ≠ (none : Option String) := by
  exact ⟨by decide, by decide⟩

/-- C4 amended: the PKCE `/callback` handler never discards the session's
code verifier; after every request — verifier found or not, exchange
succeeded or failed — the `codeVerifier` field is exactly what it was
before. -/
theorem claim_C4_verifier_retained (s : Session) (code : Option String)
    (exchange : PkceTokenRequest → Except ApiError TokenResponse)
    (clientId : String) :
    (callbackPkce s code exchange clientId).session.codeVerifier =
      s.codeVerifier := by
  unfold callbackPkce
  cases h : jsTruthy s.codeVerifier with
  | false => simp [h]
  | true =>
      simp only [h]
      rw [if_neg (by simp)]
      cases hex : exchange (pkceTokenRequest clientId code (s.codeVerifier.getD "")) <;>
        simp [hex]

/-- C6 counterexample: in the legacy client-secret variant
(src/unnamed/part_002), a callback whose exchange succeeds answers 200 with
the access token in the page body — not a 302 redirect to the playlist
view. -/
theorem claim_C6_counterexample :
    (callbackLegacy (some "c") (okExchangeLegacy "tok") "id" "secret").1 =
      some (HttpResponse.send ("Access Token: " ++ "tok")) ∧
    (callbackLegacy (some "c") (okExchangeLegacy "tok") "id" "secret").1 ≠
      some (HttpResponse.redirect "/playlist-details") := by
  exact ⟨by decide, by decide⟩

/-- C6 amended: only the PKCE variant matches the claim — its callback
redirects to `/playlist-details` on a successful exchange and to `/login`
on a failed one.  The legacy client-secret variant instead answers 200,
with the raw access token in the body on success and a generic error body
on failure. -/
theorem claim_C6_callback_responses :
    (∀ (s : Session) (code : Option String)
        (exchange : PkceTokenRequest → Except ApiError TokenResponse)
        (clientId : String),
      jsTruthy s.codeVerifier = true →
        (∀ tr, exchange (pkceTokenRequest clientId code (s.codeVerifier.getD "")) =
            Except.ok tr →
          (callbackPkce s code exchange clientId).response =
            some (HttpResponse.redirect "/playlist-details")) ∧
        (∀ e, exchange (pkceTokenRequest clientId code (s.codeVerifier.getD "")) =
            Except.error e →
          (callbackPkce s code exchange clientId).response =
            some (HttpResponse.redirect "/login"))) ∧
    (∀ (code : Option String)
        (exchange : LegacyTokenRequest → Except ApiError TokenResponse)
        (clientId clientSecret : String),
      (∀ tr, exchange (legacyTokenRequest clientId clientSecret code) =
          Except.ok tr →
        (callbackLegacy code exchange clientId clientSecret).1 =
          some (HttpResponse.send ("Access Token: " ++ tr.accessToken))) ∧
      (∀ e, exchange (legacyTokenRequest clientId clientSecret code) =
          Except.error e →
        (callbackLegacy code exchange clientId clientSecret).1 =
          some (HttpResponse.send "Error retrieving access token"))) := by
  constructor
  · intro s code exchange clientId htr
    constructor
    · intro tr hex
      unfold callbackPkce
      simp [htr, hex]
    · intro e hex
      unfold callbackPkce
      simp [htr, hex]
  · intro code exchange clientId clientSecret
    constructor
    · intro tr hex
      unfold callbackLegacy
      simp [hex]
    · intro e hex
      unfold callbackLegacy
      simp [hex]

/-- Witness for C6 at concrete inputs: PKCE success redirects to the
playlist view; legacy failure answers the generic 200 body. -/
theorem claim_C6_witness :
    (callbackPkce ⟨some "v", none⟩ (some "c") (okExchangePkce "tok")
      "cid").response = some (HttpResponse.redirect "/playlist-details") ∧
    (callbackLegacy (some "c") (errExchangeLegacy 400) "id" "sec").1 =
      some (HttpResponse.send "Error retrieving access token") := by
  have h := claim_C6_callback_responses
  exact ⟨(h.1 ⟨some "v", none⟩ (some "c") (okExchangePkce "tok") "cid"
      (by decide)).1 ⟨"tok"⟩ rfl,
    (h.2 (some "c") (errExchangeLegacy 400) "id" "sec").2 ⟨400⟩ rfl⟩

/-! ### The playlist-endpoint claims -/

/-- C1 counterexample: an authenticated `/playlist-details` request whose
downstream playlist call fails with 401 is answered 200 with the generic
error body — not a 302 redirect to `/login` — and the session access token
is left in place, not cleared. -/
theorem claim_C1_counterexample :
    (playlistDetailsPkce ⟨none, some "tok"⟩ (failPlaylist 401) noTracks 0
      Accept.html).response = some (HttpResponse.send detailsErrorBody) ∧
    (playlistDetailsPkce ⟨none, some "tok"⟩ (failPlaylist 401) noTracks 0
      Accept.html).response ≠ some (HttpResponse.redirect "/login") ∧
    (playlistDetailsPkce ⟨none, some "tok"⟩ (failPlaylist 401) noTracks 0
      Accept.html).session.accessToken = some "tok" := by
  exact ⟨by decide, by decide, by decide⟩

/-- C1 amended: when the downstream playlist call of an authenticated
`/playlist-details` request fails — with 401 or any other status — the
handler answers 200 with the generic error body and leaves the session
(including the access token) unchanged; it does not redirect and does not
clear the token. -/
theorem claim_C1_upstream_error_generic (s : Session)
    (getPlaylist : Request → Except ApiError Playlist)
    (getTracksPage : String → Except ApiError (PageResponse Track))
    (fuel : Nat) (accept : Accept) (e : ApiError)
    (htok : jsTruthy s.accessToken = true)
    (hfail : getPlaylist (mkGetReq (playlistURL pkcePlaylistId)
      (s.accessToken.getD "")) = Except.error e) :
    playlistDetailsPkce s getPlaylist getTracksPage fuel accept =
      { response := some (HttpResponse.send detailsErrorBody), session := s,
        requests := [mkGetReq (playlistURL pkcePlaylistId)
          (s.accessToken.getD "")] } := by
  unfold playlistDetailsPkce
  simp [htok, hfail]

/-- Witness for C1 at a concrete authenticated session whose downstream
call answers 401. -/
theorem claim_C1_witness :
    playlistDetailsPkce ⟨none, some "tok"⟩ (failPlaylist 401) noTracks 0
      Accept.html =
      { response := some (HttpResponse.send detailsErrorBody),
        session := ⟨none, some "tok"⟩,
        requests := [mkGetReq (playlistURL pkcePlaylistId) "tok"] } := by
  have h := claim_C1_upstream_error_generic ⟨none, some "tok"⟩
    (failPlaylist 401) noTracks 0 Accept.html ⟨401⟩ (by decide) rfl
  simpa using h

/-- C2: the identifier `accessToken` is not bound in any scope enclosing
the calls at src/server.js:425 and 475, so for every authenticated request
to `/playlist-details` or `/playlist-details/csv` the handler falls into
its catch branch and answers the generic error body; the success response
is unreachable for every input. -/
theorem claim_C2_unreachable_success :
    (playlistDetailsScope.contains "accessToken" = false ∧
      playlistCsvScope.contains "accessToken" = false) ∧
    (∀ (s : Session) (getPlaylist : Request → Except ApiError Playlist)
        (getTracksPage : String → Except ApiError (PageResponse Track))
        (fuel : Nat) (accept : Accept),
      jsTruthy s.accessToken = true →
        (playlistDetailsPkce s getPlaylist getTracksPage fuel accept).response =
          some (HttpResponse.send detailsErrorBody)) ∧
    (∀ (s : Session) (getPlaylist : Request → Except ApiError Playlist)
        (getTracksPage : String → Except ApiError (PageResponse Track))
        (fuel : Nat),
      jsTruthy s.accessToken = true →
        (playlistDetailsCsvPkce s getPlaylist getTracksPage fuel).response =
          some (HttpResponse.send detailsErrorBody)) := by
  refine ⟨⟨by decide, by decide⟩, ?_, ?_⟩
  · intro s getPlaylist getTracksPage fuel accept htok
    unfold playlistDetailsPkce
    cases hgp : getPlaylist (mkGetReq (playlistURL pkcePlaylistId)
        (s.accessToken.getD "")) with
    | error e => simp [htok, hgp]
    | ok pl =>
        simp [htok, hgp]
        rw [if_neg (by decide)]
  · intro s getPlaylist getTracksPage fuel htok
    unfold playlistDetailsCsvPkce
    cases hgp : getPlaylist (mkGetReq (playlistURL pkcePlaylistId)
        (s.accessToken.getD "")) with
    | error e => simp [htok, hgp]
    | ok pl =>
        simp [htok, hgp]
        rw [if_neg (by decide)]

/-- Witness for C2: a concrete authenticated request whose playlist call
succeeds still gets the generic error body, on both endpoints. -/
theorem claim_C2_witness :
    (playlistDetailsPkce ⟨none, some "tok"⟩ (constPlaylist "name") noTracks 0
      Accept.html).response = some (HttpResponse.send detailsErrorBody) ∧
    (playlistDetailsCsvPkce ⟨none, some "tok"⟩ (constPlaylist "name")
      noTracks 0).response = some (HttpResponse.send detailsErrorBody) := by
  have h := claim_C2_unreachable_success
  exact ⟨h.2.1 ⟨none, some "tok"⟩ (constPlaylist "name") noTracks 0
      Accept.html (by decide),
    h.2.2 ⟨none, some "tok"⟩ (constPlaylist "name") noTracks 0 (by decide)⟩

/-- C9 counterexample: the legacy `/playlist-details` handler
(src/unnamed/part_001) has no authentication guard: with the module token
still empty (no login ever happened) it issues the downstream playlist
request anyway and, when that fails, answers 200 with the generic body
instead of redirecting to `/login`. -/
theorem claim_C9_counterexample :
    (playlistDetailsLegacy "" (failPlaylist 400) noTracks 0 Accept.html).2 =
      [mkGetReq (playlistURL legacyPlaylistId) ""] ∧
    (playlistDetailsLegacy "" (failPlaylist 400) noTracks 0 Accept.html).1 ≠
      some (HttpResponse.redirect "/login") := by
  exact ⟨by decide, by decide⟩

/-- C9 amended: only the PKCE variant short-circuits: its two playlist
endpoints answer a 302 redirect to `/login` and issue no downstream request
whenever the session holds no truthy access token.  The legacy variant has
no guard: both its playlist endpoints always issue the playlist request
first, whatever the module token is. -/
theorem claim_C9_guard :
    (∀ (s : Session) (getPlaylist : Request → Except ApiError Playlist)
        (getTracksPage : String → Except ApiError (PageResponse Track))
        (fuel : Nat) (accept : Accept),
      jsTruthy s.accessToken = false →
        playlistDetailsPkce s getPlaylist getTracksPage fuel accept =
          { response := some (HttpResponse.redirect "/login"), session := s,
            requests := [] } ∧
        playlistDetailsCsvPkce s getPlaylist getTracksPage fuel =
          { response := some (HttpResponse.redirect "/login"), session := s,
            requests := [] }) ∧
    (∀ (tok : String) (getPlaylist : Request → Except ApiError Playlist)
        (getTracksPage : String → Except ApiError (PageResponse Track))
        (fuel : Nat) (accept : Accept),
      (playlistDetailsLegacy tok getPlaylist getTracksPage fuel accept).2.head? =
        some (mkGetReq (playlistURL legacyPlaylistId) tok)) ∧
    (∀ (tok : String) (getPlaylist : Request → Except ApiError Playlist)
        (getTracksPage : String → Except ApiError (PageResponse Track))
        (fuel : Nat),
      (playlistDetailsCsvLegacy tok getPlaylist getTracksPage fuel).2.head? =
        some (mkGetReq (playlistURL legacyPlaylistId) tok)) := by
  refine ⟨?_, ?_, ?_⟩
  · intro s getPlaylist getTracksPage fuel accept h
    constructor
    · unfold playlistDetailsPkce
      simp [h]
    · unfold playlistDetailsCsvPkce
      simp [h]
  · intro tok getPlaylist getTracksPage fuel accept
    unfold playlistDetailsLegacy
    cases hgp : getPlaylist (mkGetReq (playlistURL legacyPlaylistId) tok) with
    | error e => simp [hgp]
    | ok pl =>
        cases hr : (getAllPlaylistTracks getTracksPage legacyPlaylistId tok fuel).1 with
        | none => simp [hgp, hr]
        | some r =>
            cases r with
            | error e => simp [hgp, hr]
            | ok tracks => cases accept <;> simp [hgp, hr]
  · intro tok getPlaylist getTracksPage fuel
    unfold playlistDetailsCsvLegacy
    cases hgp : getPlaylist (mkGetReq (playlistURL legacyPlaylistId) tok) with
    | error e => simp [hgp]
    | ok pl =>
        cases hr : (getAllPlaylistTracks getTracksPage legacyPlaylistId tok fuel).1 with
        | none => simp [hgp, hr]
        | some r =>
            cases r with
            | error e => simp [hgp, hr]
            | ok tracks => simp [hgp, hr]

/-- Witness for C9 at concrete inputs: an unauthenticated PKCE request is
redirected with no downstream call; the legacy handler issues the playlist
request even with an empty token. -/
theorem claim_C9_witness :
    playlistDetailsPkce ⟨none, none⟩ (constPlaylist "n") noTracks 0
      Accept.html =
      { response := some (HttpResponse.redirect "/login"),
        session := ⟨none, none⟩, requests := [] } ∧
    (playlistDetailsLegacy "" (constPlaylist "n") noTracks 0
      Accept.html).2.head? =
      some (mkGetReq (playlistURL legacyPlaylistId) "") := by
  have h := claim_C9_guard
  exact ⟨(h.1 ⟨none, none⟩ (constPlaylist "n") noTracks 0 Accept.html
      (by decide)).1,
    h.2.1 "" (constPlaylist "n") noTracks 0 Accept.html⟩

/-- C3 counterexample: the filename generated for the playlist name
"Workout Mix #1!" is workout_mix__1_.csv (the space and the hash each
become an underscore), not workout_mix_1_.csv as claimed. -/
theorem claim_C3_counterexample :
    csvFilename "Workout Mix #1!" = "workout_mix__1_.csv" ∧
    csvFilename "Workout Mix #1!" ≠ "workout_mix_1_.csv" := by
  exact ⟨by decide, by decide⟩

/-! ### C3: filename sanitization -/

theorem toLower_alnum_ok : ∀ k < 123, matchesAlnum (Char.ofNat k) = true →
    filenameChar (Char.toLower (Char.ofNat k)) = true := by decide

theorem filenameChar_toLower_sanitize (d : Char) :
    filenameChar (Char.toLower (sanitizeChar d)) = true := by
  by_cases h : matchesAlnum d = true
  · have hlt : d.toNat < 123 := by
      have h2 := h
      simp only [matchesAlnum, Char.isLower, Char.isUpper, Char.isDigit,
        Bool.or_eq_true, Bool.and_eq_true, decide_eq_true_eq] at h2
      have hle : d.val ≤ 122 := by
        rcases h2 with ⟨⟨h3, h4⟩ | ⟨h3, h4⟩⟩ | ⟨h3, h4⟩
        · exact h4
        · exact UInt32.le_trans h4 (by decide)
        · exact UInt32.le_trans h4 (by decide)
      have h5 : d.val.toNat ≤ 122 := UInt32.toNat_le_of_le (by decide) hle
      show d.val.toNat < 123
      omega
    have h6 := toLower_alnum_ok d.toNat hlt (by rwa [Char.ofNat_toNat])
    rw [Char.ofNat_toNat] at h6
    rw [sanitizeChar, if_pos h]
    exact h6
  · rw [sanitizeChar, if_neg h]
    decide

/-- C3 amended: the CSV attachment filename is obtained from the playlist
name by replacing every character outside `[a-z0-9]` (case-insensitive)
with an underscore and lowercasing — every output character is a lowercase
letter, a digit or an underscore and the length is preserved — but for the
playlist name "Workout Mix #1!" the result is workout_mix__1_.csv (the
space and the hash each yield an underscore), not workout_mix_1_.csv. -/
theorem claim_C3_filename_rule :
    (∀ (name : String) (c : Char), c ∈ (sanitizePlaylistName name).data →
      filenameChar c = true) ∧
    (∀ name : String, (sanitizePlaylistName name).length = name.length) ∧
    csvFilename "Workout Mix #1!" = "workout_mix__1_.csv" := by
  refine ⟨?_, ?_, by decide⟩
  · intro name c hc
    have hc2 : c ∈ (name.data.map sanitizeChar).map Char.toLower := hc
    rw [List.map_map, List.mem_map] at hc2
    obtain ⟨d, _, hdc⟩ := hc2
    rw [← hdc]
    exact filenameChar_toLower_sanitize d
  · intro name
    show ((name.data.map sanitizeChar).map Char.toLower).length = name.data.length
    simp

/-- Witness for C3: the first character of the sanitized name is in the
allowed class, and the sanitized name of "Workout Mix #1!" keeps its 15
characters. -/
theorem claim_C3_witness :
    filenameChar 'w' = true ∧
    (sanitizePlaylistName "Workout Mix #1!").length = 15 := by
  have h := claim_C3_filename_rule
  refine ⟨h.1 "Workout Mix #1!" 'w' (by decide), ?_⟩
  exact (h.2.1 "Workout Mix #1!").trans (by decide)

/-! ### C10: the code verifier -/

theorem b64_mem (i : Nat) : b64 i ∈ base64Chars := by
  unfold b64
  split
  · exact List.get_mem _ _ _
  · decide

theorem b64_inj {i j : Nat} (hi : i < 64) (hj : j < 64) (h : b64 i = b64 j) :
    i = j := by
  have hnd : base64Chars.Nodup := by decide
  unfold b64 at h
  rw [dif_pos (show i < base64Chars.length from hi),
    dif_pos (show j < base64Chars.length from hj)] at h
  have h2 := (List.Nodup.get_inj_iff hnd).mp h
  exact congrArg Fin.val h2

theorem base64EncodeList_append : ∀ (a b : List Nat), a.length % 3 = 0 →
    base64EncodeList (a ++ b) = base64EncodeList a ++ base64EncodeList b
  | [], _, _ => by simp [base64EncodeList]
  | [_], _, h => by simp at h
  | [_, _], _, h => by simp at h
  | x :: y :: z :: a, b, h => by
      have ih := base64EncodeList_append a b (by
        simp [List.length_cons] at h
        omega)
      simp [base64EncodeList, ih]

theorem base64EncodeList_length : ∀ (l : List Nat), l.length % 3 = 0 →
    (base64EncodeList l).length = l.length / 3 * 4
  | [], _ => by simp [base64EncodeList]
  | [_], h => by simp at h
  | [_, _], h => by simp at h
  | _ :: _ :: _ :: a, h => by
      have ih := base64EncodeList_length a (by
        simp [List.length_cons] at h
        omega)
      simp [base64EncodeList, ih]
      omega

theorem base64EncodeList_subset : ∀ (l : List Nat), l.length % 3 = 0 →
    ∀ c ∈ base64EncodeList l, c ∈ base64Chars
  | [], _, _, hc => by simp [base64EncodeList] at hc
  | [_], h, _, _ => by simp at h
  | [_, _], h, _, _ => by simp at h
  | x :: y :: z :: a, h, c, hc => by
      simp only [base64EncodeList, List.mem_cons] at hc
      rcases hc with rfl | rfl | rfl | rfl | hc
      · exact b64_mem _
      · exact b64_mem _
      · exact b64_mem _
      · exact b64_mem _
      · exact base64EncodeList_subset a (by
          simp [List.length_cons] at h
          omega) c hc

theorem base64EncodeList_inj : ∀ (a b : List Nat),
    a.length % 3 = 0 → b.length % 3 = 0 →
    (∀ x ∈ a, x < 256) → (∀ x ∈ b, x < 256) →
    base64EncodeList a = base64EncodeList b → a = b
  | [], [], _, _, _, _, _ => rfl
  | [], [_], _, hb, _, _, _ => by simp at hb
  | [], [_, _], _, hb, _, _, _ => by simp at hb
  | [], _ :: _ :: _ :: _, _, _, _, _, h => by simp [base64EncodeList] at h
  | [_], _, ha, _, _, _, _ => by simp at ha
  | [_, _], _, ha, _, _, _, _ => by simp at ha
  | _ :: _ :: _ :: _, [], _, _, _, _, h => by simp [base64EncodeList] at h
  | _ :: _ :: _ :: _, [_], _, hb, _, _, _ => by simp at hb
  | _ :: _ :: _ :: _, [_, _], _, hb, _, _, _ => by simp at hb
  | x :: y :: z :: a, u :: v :: w :: b, ha, hb, hva, hvb, h => by
      simp only [base64EncodeList, List.cons.injEq] at h
      obtain ⟨h1, h2, h3, h4, h5⟩ := h
      have hx : x < 256 := hva x (by simp)
      have hy : y < 256 := hva y (by simp)
      have hz : z < 256 := hva z (by simp)
      have hu : u < 256 := hvb u (by simp)
      have hv : v < 256 := hvb v (by simp)
      have hw : w < 256 := hvb w (by simp)
      have e1 : x / 4 = u / 4 := b64_inj (by omega) (by omega) h1
      have e2 : x % 4 * 16 + y / 16 = u % 4 * 16 + v / 16 :=
        b64_inj (by omega) (by omega) h2
      have e3 : y % 16 * 4 + z / 64 = v % 16 * 4 + w / 64 :=
        b64_inj (by omega) (by omega) h3
      have e4 : z % 64 = w % 64 := b64_inj (by omega) (by omega) h4
      have ih := base64EncodeList_inj a b
        (by simp [List.length_cons] at ha; omega)
        (by simp [List.length_cons] at hb; omega)
        (fun t ht => hva t (by simp [ht]))
        (fun t ht => hvb t (by simp [ht])) h5
      have hxu : x = u := by omega
      have hyv : y = v := by omega
      have hzw : z = w := by omega
      rw [hxu, hyv, hzw, ih]

set_option maxRecDepth 8192 in
theorem urlmap_inj_on : ∀ c ∈ base64Chars, ∀ d ∈ base64Chars,
    urlmap c = urlmap d → c = d := by decide

theorem urlmap_ne_pad : ∀ c ∈ base64Chars, urlmap c ≠ '=' := by decide

theorem urlmap_verifierChar : ∀ c ∈ base64Chars, verifierChar (urlmap c) := by
  decide

theorem maps_eq_urlmap (l : List Char) :
    (l.map replacePlus).map replaceSlash = l.map urlmap := by
  rw [List.map_map]
  rfl

theorem map_urlmap_inj : ∀ (l1 l2 : List Char),
    (∀ c ∈ l1, c ∈ base64Chars) → (∀ c ∈ l2, c ∈ base64Chars) →
    l1.map urlmap = l2.map urlmap → l1 = l2
  | [], [], _, _, _ => rfl
  | [], _ :: _, _, _, h => by simp at h
  | _ :: _, [], _, _, h => by simp at h
  | c :: l1, d :: l2, h1, h2, h => by
      simp only [List.map_cons, List.cons.injEq] at h
      obtain ⟨hcd, hl⟩ := h
      have hc := urlmap_inj_on c (h1 c (by simp)) d (h2 d (by simp)) hcd
      subst hc
      rw [map_urlmap_inj l1 l2 (fun t ht => h1 t (by simp [ht]))
        (fun t ht => h2 t (by simp [ht])) hl]

theorem gen_data_eq (bytes : List Nat) (h : bytes.length = 64) :
    (generateCodeVerifier bytes).data =
      (base64EncodeList (bytes.take 48)).map urlmap := by
  have h48 : (bytes.take 48).length = 48 := by
    simp [List.length_take]
    omega
  have hmod : (bytes.take 48).length % 3 = 0 := by rw [h48]
  have hsplit : bytes.take 48 ++ bytes.drop 48 = bytes := List.take_append_drop 48 bytes
  have henc : base64EncodeList bytes =
      base64EncodeList (bytes.take 48) ++ base64EncodeList (bytes.drop 48) := by
    conv_lhs => rw [← hsplit]
    exact base64EncodeList_append _ _ hmod
  show ((((base64EncodeList bytes).map replacePlus).map replaceSlash).filter
      (fun c => c != '=')).take 64 = _
  rw [maps_eq_urlmap, henc, List.map_append, List.filter_append]
  have hA : ((base64EncodeList (bytes.take 48)).map urlmap).filter
      (fun c => c != '=') = (base64EncodeList (bytes.take 48)).map urlmap := by
    apply List.filter_eq_self.mpr
    intro c hc
    rw [List.mem_map] at hc
    obtain ⟨d, hd, rfl⟩ := hc
    exact bne_iff_ne.mpr (urlmap_ne_pad d (base64EncodeList_subset _ hmod d hd))
  rw [hA]
  have hlen : ((base64EncodeList (bytes.take 48)).map urlmap).length = 64 := by
    rw [List.length_map, base64EncodeList_length _ hmod, h48]
  rw [← hlen, List.take_left]

/-- C10: for every 64-byte sequence supplied by the entropy source, the
string returned by `generateCodeVerifier` has length exactly 64 and every
character lies in `[A-Za-z0-9\-._~]`; and the output determines the first 48
source bytes (the map is injective on them), so it carries 48 bytes = 384
bits ≥ 256 bits of entropy from the source. -/
theorem claim_C10_code_verifier (bytes : List Nat) (hlen : bytes.length = 64)
    (hval : ∀ x ∈ bytes, x < 256) :
    (generateCodeVerifier bytes).length = 64 ∧
    (∀ c ∈ (generateCodeVerifier bytes).data, verifierChar c) ∧
    (∀ bytes2 : List Nat, bytes2.length = 64 → (∀ x ∈ bytes2, x < 256) →
      generateCodeVerifier bytes = generateCodeVerifier bytes2 →
      bytes.take 48 = bytes2.take 48) := by
  have hdata := gen_data_eq bytes hlen
  have h48 : (bytes.take 48).length = 48 := by
    simp [List.length_take]
    omega
  have hmod : (bytes.take 48).length % 3 = 0 := by rw [h48]
  refine ⟨?_, ?_, ?_⟩
  · show (generateCodeVerifier bytes).data.length = 64
    rw [hdata, List.length_map, base64EncodeList_length _ hmod, h48]
  · intro c hc
    rw [hdata, List.mem_map] at hc
    obtain ⟨d, hd, rfl⟩ := hc
    exact urlmap_verifierChar d (base64EncodeList_subset _ hmod d hd)
  · intro bytes2 hlen2 hval2 heq
    have hdata2 := gen_data_eq bytes2 hlen2
    have h48b : (bytes2.take 48).length = 48 := by
      simp [List.length_take]
      omega
    have hmod2 : (bytes2.take 48).length % 3 = 0 := by rw [h48b]
    have hmapeq : (base64EncodeList (bytes.take 48)).map urlmap =
        (base64EncodeList (bytes2.take 48)).map urlmap := by
      rw [← hdata, ← hdata2, heq]
    have hencEq := map_urlmap_inj _ _ (base64EncodeList_subset _ hmod)
      (base64EncodeList_subset _ hmod2) hmapeq
    exact base64EncodeList_inj _ _ hmod hmod2
      (fun t ht => hval t (List.take_subset 48 bytes ht))
      (fun t ht => hval2 t (List.take_subset 48 bytes2 ht)) hencEq

/-- Witness for C10 at the concrete byte sequence 0..63. -/
theorem claim_C10_witness :
    (generateCodeVerifier (List.range 64)).length = 64 ∧
    (∀ c ∈ (generateCodeVerifier (List.range 64)).data, verifierChar c) ∧
    (List.range 64).take 48 = (List.range 64).take 48 := by
  have h := claim_C10_code_verifier (List.range 64) (by decide) (by decide)
  exact ⟨h.1, h.2.1, h.2.2 (List.range 64) (by decide) (by decide) rfl⟩
